import Mathlib

/-!
# Shallow embedding of the users/groups REST CRUD service

This file embeds the Express + Mongoose CRUD service of the repository:

* `models/User.js` — the Mongoose user schema (username required, length
  3–50; email required, unique, matched against the regex `\S+@\S+\.\S+`;
  password required, minimum length 6);
* `routes/users.js` — the five route handlers (POST `/`, GET `/`,
  GET `/:id`, PUT `/:id`, DELETE `/:id`), each a single driver call wrapped
  in `try`/`catch` (except GET `/`, which has no `try`/`catch`);
* `server.js` — the route mounting (`app.use('/users', userRoutes)`);
* `routes/groups.js` — the analogous groups router (defined but never
  mounted by `server.js`).

The MongoDB/Mongoose storage layer is modelled as a list of stored
documents; driver calls (`save`, `find`, `findById`, `findByIdAndUpdate`,
`findByIdAndDelete`) become pure functions returning `Except` values whose
`error` constructor stands for a thrown driver exception, and each route
handler is a function from a driver outcome to an HTTP response, mirroring
the `try`/`catch` structure of the JavaScript handlers.
-/

namespace UsersRest

/-! ## JavaScript regular-expression whitespace (`\s`) -/

/-- The character class `\s` of JavaScript regular expressions:
space, tab, LF, VT, FF, CR, NBSP, and the Unicode space separators. -/
def jsSpace (c : Char) : Bool :=
  c == ' ' || c == '\t' || c == '\n' || c == '\r' ||
  c.toNat == 11 || c.toNat == 12 || c.toNat == 0xa0 || c.toNat == 0x1680 ||
  (0x2000 ≤ c.toNat && c.toNat ≤ 0x200a) || c.toNat == 0x2028 ||
  c.toNat == 0x2029 || c.toNat == 0x202f || c.toNat == 0x205f ||
  c.toNat == 0x3000 || c.toNat == 0xfeff

/-- Complement class `\S`: any character that is not regular-expression whitespace. -/
def jsNonSpace (c : Char) : Bool := !jsSpace c

/-- The unanchored regex `/\S+@\S+\.\S+/` from the `match` rule of the email
field of `userSchema`.  The regex matches a string `s` iff `s` contains a
substring of the form (non-space run)`@`(non-space run)`.`(non-space run);
equivalently, iff there are positions `p < q` with `s[p] = '@'`,
`s[q] = '.'`, a non-space character right before `p`, only non-space
characters strictly between `p` and `q` (at least one), and a non-space
character right after `q`. -/
def emailLikeMatch (s : String) : Bool :=
  let cs := s.data
  let n := cs.length
  (List.range n).any (fun p =>
    (List.range n).any (fun q =>
      decide (1 ≤ p) && decide (p + 2 ≤ q) && decide (q + 1 < n) &&
      (cs.getD p ' ' == '@') && (cs.getD q ' ' == '.') &&
      jsNonSpace (cs.getD (p - 1) ' ') &&
      ((List.range n).all (fun i =>
        decide (i ≤ p) || decide (q ≤ i) || jsNonSpace (cs.getD i ' '))) &&
      jsNonSpace (cs.getD (q + 1) ' ')))

/-! ## MongoDB ObjectId strings

Mongoose casts a route parameter to an `ObjectId` before querying; a string
that fails to cast makes `findById` (and friends) throw a `CastError`.  A
24-character hexadecimal string casts (case-insensitively).  We represent
each ObjectId by its canonical lowercase 24-hex-digit spelling — the form
the API itself generates and returns — and normalise query strings to that
form before comparing.  (The driver also accepts a 12-character string as
raw bytes; that byte-level form lies outside this string-level model.) -/

/-- Hexadecimal digit. -/
def isHexChar (c : Char) : Bool :=
  c.isDigit || ('a' ≤ c && c ≤ 'f') || ('A' ≤ c && c ≤ 'F')

/-- Whether the identifier string casts to an ObjectId (24 hex digits). -/
def validObjectId (s : String) : Bool :=
  s.length == 24 && s.data.all isHexChar

/-- Canonical (lowercase) spelling of a hex ObjectId string. -/
def normalizeId (s : String) : String := String.mk (s.data.map Char.toLower)

/-! ## Data model -/

/-- A user document as persisted by MongoDB: the generated `_id` plus the
three schema fields of `models/User.js`. -/
structure StoredUser where
  id : String
  username : String
  email : String
  password : String
deriving DecidableEq, Repr

/-- The user collection: the stored documents in insertion order. -/
abbrev UserStore := List StoredUser

/-- A request payload (`req.body`) restricted to the schema paths;
Mongoose strict mode drops any other key.  A field is `none` when the
payload omits it. -/
structure UserPayload where
  username : Option String
  email : Option String
  password : Option String
deriving DecidableEq, Repr

/-! ## Mongoose field validation (`userSchema`)

Each schema path carries its validators, run in order: `required` first,
then `minlength` / `maxlength` / `match`.  Mongoose keeps one error per
path.  The `required` validator for strings also rejects the empty string;
the `match` validator passes on the empty string (required covers it). -/

/-- One validation error per schema path. -/
inductive FieldError where
  | usernameRequired
  | usernameTooShort
  | usernameTooLong
  | emailRequired
  | emailInvalid
  | passwordRequired
  | passwordTooShort
deriving DecidableEq, Repr

/-- The message attached to each validator in `userSchema` (custom
messages for `required` and `match`; Mongoose default messages for the
length validators, abbreviated). -/
def fieldErrorMsg : FieldError → String
  | .usernameRequired => "Username required"
  | .usernameTooShort => "username is shorter than the minimum allowed length (3)"
  | .usernameTooLong => "username is longer than the maximum allowed length (50)"
  | .emailRequired => "Email required"
  | .emailInvalid => "Email invalid"
  | .passwordRequired => "Password required"
  | .passwordTooShort => "password is shorter than the minimum allowed length (6)"

/-- Validators of the `username` path: required (fails on a missing or
empty value), minlength 3, maxlength 50. -/
def usernameError : Option String → Option FieldError
  | none => some .usernameRequired
  | some s =>
    if s.length = 0 then some .usernameRequired
    else if s.length < 3 then some .usernameTooShort
    else if 50 < s.length then some .usernameTooLong
    else none

/-- Validators of the `email` path: required, then the regex match. -/
def emailError : Option String → Option FieldError
  | none => some .emailRequired
  | some s =>
    if s.length = 0 then some .emailRequired
    else if emailLikeMatch s then none
    else some .emailInvalid

/-- Validators of the `password` path: required, minlength 6. -/
def passwordError : Option String → Option FieldError
  | none => some .passwordRequired
  | some s =>
    if s.length = 0 then some .passwordRequired
    else if s.length < 6 then some .passwordTooShort
    else none

/-- Document validation as run by `user.save()`: every schema path is
validated, in schema order. -/
def docErrors (p : UserPayload) : List FieldError :=
  (usernameError p.username).toList ++ (emailError p.email).toList ++
  (passwordError p.password).toList

/-- Update validation as run by `findByIdAndUpdate` with
`runValidators: true`: Mongoose update validators run only on the paths
present in the update, so validators of omitted paths (including
`required`) never fire. -/
def updateErrors (p : UserPayload) : List FieldError :=
  (Option.bind p.username (fun s => usernameError (some s))).toList ++
  (Option.bind p.email (fun s => emailError (some s))).toList ++
  (Option.bind p.password (fun s => passwordError (some s))).toList

/-! ## Driver exceptions and responses -/

/-- An exception thrown by a storage-layer call.  `castError` is the
ObjectId cast failure, `validation` a Mongoose `ValidationError`,
`dupKey` the MongoDB `E11000` unique-index violation on `email`, and
`fault` any other storage-layer fault (connection loss, timeout, …). -/
inductive DbErr where
  | castError
  | validation (errs : List FieldError)
  | dupKey (email : String)
  | fault (msg : String)
deriving DecidableEq, Repr

/-- Message (`err.message`) of a thrown driver exception (driver-internal texts
abbreviated). -/
def dbErrMessage : DbErr → String
  | .castError => "Cast to ObjectId failed"
  | .validation errs =>
    "User validation failed: " ++ String.intercalate ", " (errs.map fieldErrorMsg)
  | .dupKey e => "E11000 duplicate key error: email " ++ e
  | .fault m => m

/-- A JSON response body. -/
inductive Body where
  /-- Body of `res.json(user)` — a single document. -/
  | user (u : StoredUser)
  /-- Body of `res.json(users)` — an array of documents. -/
  | users (l : List StoredUser)
  /-- Body of `res.json` on an error object with message `m`. -/
  | errorMsg (m : String)
  /-- Body of `res.json` on a msg object with text `m`. -/
  | jsonMsg (m : String)
deriving DecidableEq, Repr

/-- An HTTP response: status code and JSON body. -/
structure Response where
  status : Nat
  body : Body
deriving DecidableEq, Repr

/-! ## Storage drivers

Pure models of the Mongoose calls made by the handlers.  `Except.error`
stands for the call throwing. -/

/-- Model of `new User(req.body); await user.save()`: validate every schema path,
then insert; the unique index on `email` rejects a duplicate with
`E11000`.  On success the new document (with its generated `_id`) is
appended to the collection. -/
def saveDriver (s : UserStore) (newId : String) (p : UserPayload) :
    Except DbErr (StoredUser × UserStore) :=
  if docErrors p = [] then
    let u : StoredUser :=
      { id := newId, username := p.username.getD "",
        email := p.email.getD "", password := p.password.getD "" }
    if s.any (fun v => v.email == u.email) then .error (.dupKey u.email)
    else .ok (u, s ++ [u])
  else .error (.validation (docErrors p))

/-- Model of `User.findById(id)`: cast the id (throwing `CastError` on failure),
then look the document up. -/
def findByIdDriver (s : UserStore) (id : String) :
    Except DbErr (Option StoredUser) :=
  if validObjectId id = false then .error .castError
  else .ok (s.find? (fun v => v.id == normalizeId id))

/-- Merging an update payload into a stored document (`findByIdAndUpdate`
applies the payload as a `$set` of the supplied paths). -/
def applyUpdate (u : StoredUser) (p : UserPayload) : StoredUser :=
  { id := u.id, username := p.username.getD u.username,
    email := p.email.getD u.email, password := p.password.getD u.password }

/-- Model of `User.findByIdAndUpdate(id, req.body, { new: true, runValidators:
true })`: cast the id, run the update validators on the supplied paths,
then find-and-modify; the unique index on `email` rejects an update that
would duplicate another document's email.  Returns the post-update
document (`new: true`) together with the updated collection, or `none`
when no document has the id. -/
def findByIdAndUpdateDriver (s : UserStore) (id : String) (p : UserPayload) :
    Except DbErr (Option (StoredUser × UserStore)) :=
  if validObjectId id = false then .error .castError
  else if updateErrors p = [] then
    match s.find? (fun v => v.id == normalizeId id) with
    | none => .ok none
    | some u =>
      let u2 := applyUpdate u p
      if s.any (fun v => v.id != u.id && v.email == u2.email) then
        .error (.dupKey u2.email)
      else .ok (some (u2, s.map (fun v => if v.id == u.id then u2 else v)))
  else .error (.validation (updateErrors p))

/-- Model of `User.findByIdAndDelete(id)`: cast the id, then remove the document
with that id (the first match), returning it, or `none` when absent. -/
def findByIdAndDeleteDriver (s : UserStore) (id : String) :
    Except DbErr (Option (StoredUser × UserStore)) :=
  if validObjectId id = false then .error .castError
  else
    match s.find? (fun v => v.id == normalizeId id) with
    | none => .ok none
    | some u => .ok (some (u, s.eraseP (fun v => v.id == normalizeId id)))

/-! ## Route handlers

Each handler is a function from the driver outcome to the response,
mirroring the `try { … } catch (err) { … }` structure of `routes/users.js`.
The GET `/` handler has no `try`/`catch`, so a thrown fault produces no
response at all (`none`). -/

/-- Handler `router.post('/')`: 201 with the saved document; the catch block maps
any thrown error to 400 with `err.message`. -/
def createRoute : Except DbErr (StoredUser × UserStore) → Response
  | .ok (u, _) => ⟨201, .user u⟩
  | .error e => ⟨400, .errorMsg (dbErrMessage e)⟩

/-- Handler `router.get('/')`: 200 with all documents; no `try`/`catch`, so a
thrown fault propagates (no response). -/
def listRoute : Except DbErr (List StoredUser) → Option Response
  | .ok l => some ⟨200, .users l⟩
  | .error _ => none

/-- Handler `router.get('/:id')`: 404 when the lookup returns nothing, 200 with
the document otherwise; the catch block maps any thrown error to
400 `"Invalid user ID"`. -/
def getByIdRoute : Except DbErr (Option StoredUser) → Response
  | .ok none => ⟨404, .errorMsg "User not found"⟩
  | .ok (some u) => ⟨200, .user u⟩
  | .error _ => ⟨400, .errorMsg "Invalid user ID"⟩

/-- Handler `router.put('/:id')`: 404 when no document has the id, 200 with the
post-update document otherwise; the catch block maps any thrown error to
400 with `err.message`. -/
def updateRoute : Except DbErr (Option (StoredUser × UserStore)) → Response
  | .ok none => ⟨404, .errorMsg "User not found"⟩
  | .ok (some (u, _)) => ⟨200, .user u⟩
  | .error e => ⟨400, .errorMsg (dbErrMessage e)⟩

/-- Handler `router.delete('/:id')`: 404 when no document has the id, 200 with
`{ msg: "Deleted successfully" }` otherwise; the catch block maps any
thrown error to 400 `"Invalid user ID"`. -/
def deleteRoute : Except DbErr (Option (StoredUser × UserStore)) → Response
  | .ok none => ⟨404, .errorMsg "User not found"⟩
  | .ok (some _) => ⟨200, .jsonMsg "Deleted successfully"⟩
  | .error _ => ⟨400, .errorMsg "Invalid user ID"⟩

/-! ## End-to-end operations (handler applied to the real driver) -/

/-- POST `/users`: the response together with the resulting collection
(unchanged whenever the driver threw). -/
def createUser (s : UserStore) (newId : String) (p : UserPayload) :
    Response × UserStore :=
  match saveDriver s newId p with
  | .ok (u, s2) => (createRoute (.ok (u, s2)), s2)
  | .error e => (createRoute (.error e), s)

/-- GET `/users`. -/
def listUsers (s : UserStore) : Option Response := listRoute (.ok s)

/-- GET `/users/:id`. -/
def getUser (s : UserStore) (id : String) : Response :=
  getByIdRoute (findByIdDriver s id)

/-- PUT `/users/:id`: the response together with the resulting collection. -/
def updateUser (s : UserStore) (id : String) (p : UserPayload) :
    Response × UserStore :=
  match findByIdAndUpdateDriver s id p with
  | .ok (some (u, s2)) => (updateRoute (.ok (some (u, s2))), s2)
  | .ok none => (updateRoute (.ok none), s)
  | .error e => (updateRoute (.error e), s)

/-- DELETE `/users/:id`: the response together with the resulting
collection. -/
def deleteUser (s : UserStore) (id : String) : Response × UserStore :=
  match findByIdAndDeleteDriver s id with
  | .ok (some (u, s2)) => (deleteRoute (.ok (some (u, s2))), s2)
  | .ok none => (deleteRoute (.ok none), s)
  | .error e => (deleteRoute (.error e), s)

/-! ## Serialization (`res.json` on a document)

Mongoose `toJSON` emits every schema path of the document verbatim;
nothing is redacted or transformed. -/

/-- The key/value pairs of the JSON serialization of a user document. -/
def serializeUser (u : StoredUser) : List (String × String) :=
  [("_id", u.id), ("username", u.username), ("email", u.email),
   ("password", u.password)]

/-! ## Route surface (`server.js` and the two router modules) -/

/-- HTTP verbs used by the routers. -/
inductive HttpMethod where
  | post
  | get
  | put
  | delete
deriving DecidableEq, Repr

/-- The two route patterns registered by each router. -/
inductive RoutePattern where
  | root
  | byId
deriving DecidableEq, Repr

/-- One `router.<verb>(<pattern>, …)` registration. -/
structure RouterEntry where
  method : HttpMethod
  pattern : RoutePattern
deriving DecidableEq, Repr

/-- The registrations of `routes/users.js`, in source order. -/
def usersRouter : List RouterEntry :=
  [⟨.post, .root⟩, ⟨.get, .root⟩, ⟨.get, .byId⟩, ⟨.put, .byId⟩,
   ⟨.delete, .byId⟩]

/-- The registrations of `routes/groups.js`, in source order. -/
def groupsRouter : List RouterEntry :=
  [⟨.post, .root⟩, ⟨.get, .root⟩, ⟨.get, .byId⟩, ⟨.put, .byId⟩,
   ⟨.delete, .byId⟩]

/-- The router mounts performed by `server.js`: only
`app.use('/users', userRoutes)`; the groups router is never mounted. -/
def serverMounts : List (String × List RouterEntry) := [("/users", usersRouter)]

/-- Whether the server dispatches a verb-and-path pair under a base path:
some mount has that base path and its router registers the pair. -/
def dispatches (base : String) (e : RouterEntry) : Bool :=
  serverMounts.any (fun m => m.1 == base && m.2.any (fun r => decide (r = e)))

/-! ## Store invariants and reachability -/

/-- A stored document satisfies every field validator of the schema. -/
def storedValid (v : StoredUser) : Prop :=
  usernameError (some v.username) = none ∧ emailError (some v.email) = none ∧
  passwordError (some v.password) = none

instance : DecidablePred storedValid := fun v => by
  unfold storedValid; infer_instance

/-- Well-formedness of the collection: pairwise-distinct ids (MongoDB
generates a fresh `_id` per insert), pairwise-distinct emails (the unique
index), and every document field-valid. -/
def storeWF (s : UserStore) : Prop :=
  List.Pairwise (fun a b : StoredUser => a.id ≠ b.id) s ∧
  List.Pairwise (fun a b : StoredUser => a.email ≠ b.email) s ∧
  ∀ v ∈ s, storedValid v

/-- The collection states reachable from the empty collection through the
API's mutating operations.  The id passed to `create` is the `_id`
MongoDB generates, hence fresh. -/
inductive Reachable : UserStore → Prop where
  | empty : Reachable []
  | create (s : UserStore) (newId : String) (p : UserPayload) :
      Reachable s → (∀ v ∈ s, v.id ≠ newId) →
      Reachable (createUser s newId p).2
  | update (s : UserStore) (id : String) (p : UserPayload) :
      Reachable s → Reachable (updateUser s id p).2
  | delete (s : UserStore) (id : String) :
      Reachable s → Reachable (deleteUser s id).2

/-! ## Validation equivalences -/

theorem option_toList_eq_nil {α : Type} {o : Option α} :
    o.toList = [] ↔ o = none := by
  cases o <;> simp

theorem emailLikeMatch_of_nil {s : String} (h : s.data = []) :
    emailLikeMatch s = false := by
  simp [emailLikeMatch, h]

theorem usernameError_eq_none {o : Option String} :
    usernameError o = none ↔ ∃ s, o = some s ∧ 3 ≤ s.length ∧ s.length ≤ 50 := by
  cases o with
  | none => simp [usernameError]
  | some s =>
    simp only [usernameError, Option.some.injEq, exists_eq_left']
    split_ifs with h0 h3 h50 <;> simp <;> omega

theorem passwordError_eq_none {o : Option String} :
    passwordError o = none ↔ ∃ s, o = some s ∧ 6 ≤ s.length := by
  cases o with
  | none => simp [passwordError]
  | some s =>
    simp only [passwordError, Option.some.injEq, exists_eq_left']
    split_ifs with h0 h6 <;> simp <;> omega

theorem emailError_eq_none {o : Option String} :
    emailError o = none ↔ ∃ s, o = some s ∧ emailLikeMatch s = true := by
  cases o with
  | none => simp [emailError]
  | some s =>
    simp only [emailError, Option.some.injEq, exists_eq_left']
    split_ifs with h0 hm
    · have hf : emailLikeMatch s = false := by
        apply emailLikeMatch_of_nil
        have : s.data.length = 0 := h0
        exact List.length_eq_zero.mp this
      simp [hf]
    · simp [hm]
    · simp [hm]

theorem docErrors_eq_nil {p : UserPayload} :
    docErrors p = [] ↔
      usernameError p.username = none ∧ emailError p.email = none ∧
      passwordError p.password = none := by
  simp [docErrors, option_toList_eq_nil]

theorem updateErrors_eq_nil {p : UserPayload} :
    updateErrors p = [] ↔
      p.username.bind (fun s => usernameError (some s)) = none ∧
      p.email.bind (fun s => emailError (some s)) = none ∧
      p.password.bind (fun s => passwordError (some s)) = none := by
  simp [updateErrors, option_toList_eq_nil]

/-- Given a field-valid stored document, the update validators accept a
payload exactly when the merged document passes every field validator of
the schema. -/
theorem updateErrors_nil_iff_merged_valid {u : StoredUser} {p : UserPayload}
    (hu : storedValid u) :
    updateErrors p = [] ↔
      (usernameError (some (applyUpdate u p).username) = none ∧
       emailError (some (applyUpdate u p).email) = none ∧
       passwordError (some (applyUpdate u p).password) = none) := by
  obtain ⟨h1, h2, h3⟩ := hu
  rw [updateErrors_eq_nil]
  cases hp : p.username <;> cases he : p.email <;> cases hw : p.password <;>
    simp [applyUpdate, hp, he, hw, h1, h2, h3]

theorem dbErrMessage_validation_ne (errs : List FieldError) :
    dbErrMessage (.validation errs) ≠ "" := by
  intro h
  have h2 := congrArg String.length h
  rw [show dbErrMessage (.validation errs) =
        "User validation failed: " ++
          String.intercalate ", " (errs.map fieldErrorMsg) from rfl,
      String.length_append] at h2
  have h3 : "User validation failed: ".length = 24 := by decide
  have h4 : String.length "" = 0 := by decide
  omega

theorem dbErrMessage_dupKey_ne (e : String) : dbErrMessage (.dupKey e) ≠ "" := by
  intro h
  have h2 := congrArg String.length h
  rw [show dbErrMessage (.dupKey e) =
        "E11000 duplicate key error: email " ++ e from rfl,
      String.length_append] at h2
  have h3 : "E11000 duplicate key error: email ".length = 34 := by decide
  have h4 : String.length "" = 0 := by decide
  omega

/-! ## Claims -/

/-- Claim C1 — For every Create request (POST `/users`) whose payload
satisfies all field rules (username present with length 3–50, email
present, matching the email pattern and not already stored, password
present with length ≥ 6), the handler persists the document (appending it
to the collection), assigns the generated identifier, and responds 201
with a body whose `username`, `email` and `password` equal the input
fields; for every payload violating any rule, nothing is persisted and
the response is 400 with a non-empty error message. -/
theorem create_contract (s : UserStore) (newId : String) (p : UserPayload) :
    (((∃ un, p.username = some un ∧ 3 ≤ un.length ∧ un.length ≤ 50) ∧
      (∃ em, p.email = some em ∧ emailLikeMatch em = true ∧
        ∀ v ∈ s, v.email ≠ em) ∧
      (∃ pw, p.password = some pw ∧ 6 ≤ pw.length)) →
      ∃ u : StoredUser,
        createUser s newId p = (⟨201, Body.user u⟩, s ++ [u]) ∧
        u.id = newId ∧ p.username = some u.username ∧
        p.email = some u.email ∧ p.password = some u.password) ∧
    ((¬ ((∃ un, p.username = some un ∧ 3 ≤ un.length ∧ un.length ≤ 50) ∧
      (∃ em, p.email = some em ∧ emailLikeMatch em = true ∧
        ∀ v ∈ s, v.email ≠ em) ∧
      (∃ pw, p.password = some pw ∧ 6 ≤ pw.length))) →
      ∃ m, m ≠ "" ∧ createUser s newId p = (⟨400, Body.errorMsg m⟩, s)) := by
  constructor
  · rintro ⟨⟨un, hun, h3, h50⟩, ⟨em, hem, hm, huniq⟩, ⟨pw, hpw, h6⟩⟩
    have hde : docErrors p = [] :=
      docErrors_eq_nil.mpr
        ⟨usernameError_eq_none.mpr ⟨un, hun, h3, h50⟩,
         emailError_eq_none.mpr ⟨em, hem, hm⟩,
         passwordError_eq_none.mpr ⟨pw, hpw, h6⟩⟩
    have hdup : ¬ ∃ v ∈ s, v.email = em := by
      rintro ⟨v, hv, hve⟩
      exact huniq v hv hve
    refine ⟨⟨newId, un, em, pw⟩, ?_, rfl, hun, hem, hpw⟩
    simp [createUser, saveDriver, hde, hun, hem, hpw, hdup, createRoute]
  · intro hnc
    by_cases hde : docErrors p = []
    · obtain ⟨hu, he, hw⟩ := docErrors_eq_nil.mp hde
      obtain ⟨un, hun, h3, h50⟩ := usernameError_eq_none.mp hu
      obtain ⟨em, hem, hmatch⟩ := emailError_eq_none.mp he
      obtain ⟨pw, hpw, h6⟩ := passwordError_eq_none.mp hw
      have hdup : ∃ v ∈ s, v.email = em := by
        by_contra hc
        push_neg at hc
        exact hnc ⟨⟨un, hun, h3, h50⟩, ⟨em, hem, hmatch, hc⟩,
          ⟨pw, hpw, h6⟩⟩
      refine ⟨dbErrMessage (.dupKey em), ?_, ?_⟩
      · exact dbErrMessage_dupKey_ne _
      · simp [createUser, saveDriver, hde, hem, hdup, createRoute]
    · refine ⟨dbErrMessage (.validation (docErrors p)), ?_, ?_⟩
      · exact dbErrMessage_validation_ne _
      · simp [createUser, saveDriver, hde, createRoute]

/-- Witness for `create_contract`: a concrete valid payload is persisted
with 201, and a concrete invalid one (bad email) is rejected with 400. -/
theorem create_contract_witness :
    (∃ u : UsersRest.StoredUser,
      createUser [] "aaaaaaaaaaaaaaaaaaaaaaaa"
          ⟨some "bob", some "a@b.c", some "secret"⟩ =
        (⟨201, Body.user u⟩, [] ++ [u]) ∧
      u.id = "aaaaaaaaaaaaaaaaaaaaaaaa" ∧
      (some "bob" : Option String) = some u.username ∧
      (some "a@b.c" : Option String) = some u.email ∧
      (some "secret" : Option String) = some u.password) ∧
    (∃ m, m ≠ "" ∧
      createUser [] "aaaaaaaaaaaaaaaaaaaaaaaa"
          ⟨some "bob", some "invalid", some "secret"⟩ =
        (⟨400, Body.errorMsg m⟩, [])) :=
  ⟨(create_contract [] "aaaaaaaaaaaaaaaaaaaaaaaa"
      ⟨some "bob", some "a@b.c", some "secret"⟩).1
      ⟨⟨"bob", rfl, by decide, by decide⟩,
       ⟨"a@b.c", rfl, by decide, by simp⟩,
       ⟨"secret", rfl, by decide⟩⟩,
   (create_contract [] "aaaaaaaaaaaaaaaaaaaaaaaa"
      ⟨some "bob", some "invalid", some "secret"⟩).2
      (by
        rintro ⟨-, ⟨em, hem, hmatch, -⟩, -⟩
        cases hem
        exact absurd hmatch (by decide))⟩

/-! ## Case equations for the Get handler -/

theorem getUser_invalid {s : UserStore} {id : String}
    (h : validObjectId id = false) :
    getUser s id = ⟨400, Body.errorMsg "Invalid user ID"⟩ := by
  simp [getUser, findByIdDriver, getByIdRoute, h]

theorem getUser_missing {s : UserStore} {id : String}
    (h : validObjectId id = true)
    (hf : s.find? (fun v => v.id == normalizeId id) = none) :
    getUser s id = ⟨404, Body.errorMsg "User not found"⟩ := by
  simp [getUser, findByIdDriver, getByIdRoute, h, hf]

theorem getUser_found {s : UserStore} {id : String} {u : StoredUser}
    (h : validObjectId id = true)
    (hf : s.find? (fun v => v.id == normalizeId id) = some u) :
    getUser s id = ⟨200, Body.user u⟩ := by
  simp [getUser, findByIdDriver, getByIdRoute, h, hf]

/-- Claim C2 — For every Get-by-identifier request (GET `/users/:id`): if the
identifier does not cast to an ObjectId the response is 400; if it casts
but no stored document has that identifier the response is 404; otherwise
the response is 200 with the stored document.  The three cases are
mutually exclusive and exhaustive: they split on the Boolean
`validObjectId id` and, below it, on the option returned by the lookup,
and the three responses are pairwise distinct. -/
theorem get_by_id_contract (s : UserStore) (id : String) :
    (validObjectId id = false →
      getUser s id = ⟨400, Body.errorMsg "Invalid user ID"⟩) ∧
    (validObjectId id = true →
      s.find? (fun v => v.id == normalizeId id) = none →
      getUser s id = ⟨404, Body.errorMsg "User not found"⟩) ∧
    (∀ u, validObjectId id = true →
      s.find? (fun v => v.id == normalizeId id) = some u →
      getUser s id = ⟨200, Body.user u⟩) := by
  exact ⟨fun h => getUser_invalid h, fun h hf => getUser_missing h hf,
    fun u h hf => getUser_found h hf⟩

/-- Witness for `get_by_id_contract`: the three outcomes at concrete
stores and identifiers. -/
theorem get_by_id_contract_witness :
    getUser [] "nope" = ⟨400, Body.errorMsg "Invalid user ID"⟩ ∧
    getUser [] "aaaaaaaaaaaaaaaaaaaaaaaa" =
      ⟨404, Body.errorMsg "User not found"⟩ ∧
    getUser [⟨"aaaaaaaaaaaaaaaaaaaaaaaa", "bob", "a@b.c", "secret"⟩]
        "aaaaaaaaaaaaaaaaaaaaaaaa" =
      ⟨200, Body.user ⟨"aaaaaaaaaaaaaaaaaaaaaaaa", "bob", "a@b.c", "secret"⟩⟩ :=
  ⟨(get_by_id_contract [] "nope").1 (by decide),
   (get_by_id_contract [] "aaaaaaaaaaaaaaaaaaaaaaaa").2.1 (by decide)
     (by decide),
   (get_by_id_contract
       [⟨"aaaaaaaaaaaaaaaaaaaaaaaa", "bob", "a@b.c", "secret"⟩]
       "aaaaaaaaaaaaaaaaaaaaaaaa").2.2
     ⟨"aaaaaaaaaaaaaaaaaaaaaaaa", "bob", "a@b.c", "secret"⟩
     (by decide) (by decide)⟩

/-! ## Helpers about id-distinct collections -/

theorem pairwise_id_eq {s : UserStore}
    (h : List.Pairwise (fun a b : StoredUser => a.id ≠ b.id) s)
    {v u : StoredUser} (hv : v ∈ s) (hu : u ∈ s) (heq : v.id = u.id) :
    v = u := by
  induction s with
  | nil => cases hv
  | cons a t ih =>
    rw [List.pairwise_cons] at h
    cases hv with
    | head =>
      cases hu with
      | head => rfl
      | tail _ hu' => exact absurd heq (h.1 u hu')
    | tail _ hv' =>
      cases hu with
      | head => exact absurd heq.symm (h.1 v hv')
      | tail _ hu' => exact ih h.2 hv' hu'

theorem eraseP_id_not_mem {s : UserStore} {nid : String}
    (h : List.Pairwise (fun a b : StoredUser => a.id ≠ b.id) s) :
    ∀ v ∈ s.eraseP (fun w => w.id == nid), v.id ≠ nid := by
  induction s with
  | nil => intro v hv; cases hv
  | cons a t ih =>
    rw [List.pairwise_cons] at h
    by_cases ha : a.id = nid
    · rw [List.eraseP_cons_of_pos (by simpa using ha)]
      intro v hv hvid
      exact h.1 v hv (ha.trans hvid.symm)
    · rw [List.eraseP_cons_of_neg (by simpa using ha)]
      intro v hv
      cases hv with
      | head => exact ha
      | tail _ hv' => exact ih h.2 v hv'

/-- Claim C6 — For every existing identifier (an id that casts and whose
document is stored, in a collection with distinct ids), Delete
(DELETE `/users/:id`) returns 200 with body `{"msg":"Deleted
successfully"}`, removes the document, and a subsequent Get on the same
identifier returns 404. -/
theorem delete_then_get (s : UserStore) (id : String) (u : StoredUser)
    (hids : List.Pairwise (fun a b : StoredUser => a.id ≠ b.id) s)
    (hv : validObjectId id = true)
    (hf : s.find? (fun v => v.id == normalizeId id) = some u) :
    deleteUser s id =
      (⟨200, Body.jsonMsg "Deleted successfully"⟩,
       s.eraseP (fun v => v.id == normalizeId id)) ∧
    (∀ v ∈ (deleteUser s id).2, v.id ≠ normalizeId id) ∧
    getUser (deleteUser s id).2 id = ⟨404, Body.errorMsg "User not found"⟩ := by
  have hdel : deleteUser s id =
      (⟨200, Body.jsonMsg "Deleted successfully"⟩,
       s.eraseP (fun v => v.id == normalizeId id)) := by
    simp [deleteUser, findByIdAndDeleteDriver, hv, hf, deleteRoute]
  refine ⟨hdel, ?_, ?_⟩
  · rw [hdel]
    exact fun v hv' => eraseP_id_not_mem hids v hv'
  · rw [hdel]
    have hnone : (s.eraseP (fun v => v.id == normalizeId id)).find?
        (fun v => v.id == normalizeId id) = none := by
      rw [List.find?_eq_none]
      intro x hx
      simpa using eraseP_id_not_mem hids x hx
    simp [getUser, findByIdDriver, getByIdRoute, hv, hnone]

/-- Witness for `delete_then_get`: deleting the only stored user answers
200 `"Deleted successfully"`, and getting it afterwards answers 404. -/
theorem delete_then_get_witness :
    deleteUser [⟨"aaaaaaaaaaaaaaaaaaaaaaaa", "bob", "a@b.c", "secret"⟩]
        "aaaaaaaaaaaaaaaaaaaaaaaa" =
      (⟨200, Body.jsonMsg "Deleted successfully"⟩,
       List.eraseP (fun v => v.id == normalizeId "aaaaaaaaaaaaaaaaaaaaaaaa")
         [⟨"aaaaaaaaaaaaaaaaaaaaaaaa", "bob", "a@b.c", "secret"⟩]) ∧
    (∀ v ∈ (deleteUser [⟨"aaaaaaaaaaaaaaaaaaaaaaaa", "bob", "a@b.c", "secret"⟩]
        "aaaaaaaaaaaaaaaaaaaaaaaa").2,
      v.id ≠ normalizeId "aaaaaaaaaaaaaaaaaaaaaaaa") ∧
    getUser (deleteUser [⟨"aaaaaaaaaaaaaaaaaaaaaaaa", "bob", "a@b.c", "secret"⟩]
        "aaaaaaaaaaaaaaaaaaaaaaaa").2 "aaaaaaaaaaaaaaaaaaaaaaaa" =
      ⟨404, Body.errorMsg "User not found"⟩ :=
  delete_then_get [⟨"aaaaaaaaaaaaaaaaaaaaaaaa", "bob", "a@b.c", "secret"⟩]
    "aaaaaaaaaaaaaaaaaaaaaaaa"
    ⟨"aaaaaaaaaaaaaaaaaaaaaaaa", "bob", "a@b.c", "secret"⟩
    (by simp) (by decide) (by decide)

/-- Claim C8 — For every stored user and every Update request whose payload
contains only a (valid-length) username, the stored document's `email`
and `password` are unchanged and the response body is the merged
document: new username, old email, old password, same identifier. -/
theorem update_username_frame (s : UserStore) (id : String) (u : StoredUser)
    (name : String)
    (hv : validObjectId id = true)
    (hf : s.find? (fun v => v.id == normalizeId id) = some u)
    (hem : ∀ v ∈ s, v.id ≠ u.id → v.email ≠ u.email)
    (h3 : 3 ≤ name.length) (h50 : name.length ≤ 50) :
    updateUser s id ⟨some name, none, none⟩ =
      (⟨200, Body.user ⟨u.id, name, u.email, u.password⟩⟩,
       s.map (fun v =>
         if v.id == u.id then ⟨u.id, name, u.email, u.password⟩ else v)) ∧
    ∀ v ∈ (updateUser s id ⟨some name, none, none⟩).2, v.id = u.id →
      v.email = u.email ∧ v.password = u.password ∧ v.username = name := by
  have herr : updateErrors ⟨some name, none, none⟩ = [] :=
    updateErrors_eq_nil.mpr
      ⟨by simpa using usernameError_eq_none.mpr ⟨name, rfl, h3, h50⟩,
       by simp, by simp⟩
  have hmerge : applyUpdate u ⟨some name, none, none⟩ =
      ⟨u.id, name, u.email, u.password⟩ := rfl
  have hdup : ¬ ∃ v ∈ s, v.id ≠ u.id ∧ v.email = u.email := by
    rintro ⟨v, hvm, hne, heq⟩
    exact hem v hvm hne heq
  have hupd : updateUser s id ⟨some name, none, none⟩ =
      (⟨200, Body.user ⟨u.id, name, u.email, u.password⟩⟩,
       s.map (fun v =>
         if v.id == u.id then ⟨u.id, name, u.email, u.password⟩ else v)) := by
    simp [updateUser, findByIdAndUpdateDriver, hv, herr, hf, hmerge, hdup,
      updateRoute, applyUpdate]
  refine ⟨hupd, ?_⟩
  rw [hupd]
  intro v hvm hvid
  rw [List.mem_map] at hvm
  obtain ⟨w, hw, rfl⟩ := hvm
  by_cases hc : w.id = u.id
  · simp [hc]
  · simp only [show (w.id == u.id) = false by simpa using hc, if_false] at hvid ⊢
    exact absurd hvid hc

/-- Witness for `update_username_frame`: renaming the only stored user
keeps its email and password. -/
theorem update_username_frame_witness :
    updateUser [⟨"aaaaaaaaaaaaaaaaaaaaaaaa", "bob", "a@b.c", "secret"⟩]
        "aaaaaaaaaaaaaaaaaaaaaaaa" ⟨some "robert", none, none⟩ =
      (⟨200, Body.user ⟨"aaaaaaaaaaaaaaaaaaaaaaaa", "robert", "a@b.c", "secret"⟩⟩,
       List.map (fun v =>
         if v.id == "aaaaaaaaaaaaaaaaaaaaaaaa" then
           (⟨"aaaaaaaaaaaaaaaaaaaaaaaa", "robert", "a@b.c", "secret"⟩ : StoredUser)
         else v)
         [⟨"aaaaaaaaaaaaaaaaaaaaaaaa", "bob", "a@b.c", "secret"⟩]) ∧
    ∀ v ∈ (updateUser [⟨"aaaaaaaaaaaaaaaaaaaaaaaa", "bob", "a@b.c", "secret"⟩]
        "aaaaaaaaaaaaaaaaaaaaaaaa" ⟨some "robert", none, none⟩).2,
      v.id = "aaaaaaaaaaaaaaaaaaaaaaaa" →
      v.email = "a@b.c" ∧ v.password = "secret" ∧ v.username = "robert" :=
  update_username_frame [⟨"aaaaaaaaaaaaaaaaaaaaaaaa", "bob", "a@b.c", "secret"⟩]
    "aaaaaaaaaaaaaaaaaaaaaaaa"
    ⟨"aaaaaaaaaaaaaaaaaaaaaaaa", "bob", "a@b.c", "secret"⟩ "robert"
    (by decide) (by decide) (by decide) (by decide) (by decide)

/-- Claim C10 — For every existing identifier (in a collection with distinct
ids and unique emails), an Update whose payload is empty succeeds with
200 and leaves the collection unchanged: update validators run only on
the supplied paths, so required-field and length rules on absent fields
never fire during Update. -/
theorem update_empty_payload (s : UserStore) (id : String) (u : StoredUser)
    (hids : List.Pairwise (fun a b : StoredUser => a.id ≠ b.id) s)
    (hv : validObjectId id = true)
    (hf : s.find? (fun v => v.id == normalizeId id) = some u)
    (hem : ∀ v ∈ s, v.id ≠ u.id → v.email ≠ u.email) :
    updateErrors ⟨none, none, none⟩ = [] ∧
    updateUser s id ⟨none, none, none⟩ = (⟨200, Body.user u⟩, s) := by
  have herr : updateErrors ⟨none, none, none⟩ = [] := rfl
  have hmerge : applyUpdate u ⟨none, none, none⟩ = u := rfl
  have hdup : ¬ ∃ v ∈ s, v.id ≠ u.id ∧ v.email = u.email := by
    rintro ⟨v, hvm, hne, heq⟩
    exact hem v hvm hne heq
  have hmap : s.map (fun v => if v.id == u.id then u else v) = s := by
    rw [show s.map (fun v => if v.id == u.id then u else v) =
        s.map (fun a => a) from ?_, List.map_id']
    apply List.map_congr_left
    intro v hvm
    by_cases hc : v.id = u.id
    · have : v = u :=
        pairwise_id_eq hids hvm (List.mem_of_find?_eq_some hf) hc
      simp [this]
    · simp [show (v.id == u.id) = false by simpa using hc]
  have hupd : updateUser s id ⟨none, none, none⟩ =
      (⟨200, Body.user u⟩, s.map (fun v => if v.id == u.id then u else v)) := by
    simp [updateUser, findByIdAndUpdateDriver, hv, herr, hf, hmerge, hdup,
      updateRoute]
  exact ⟨herr, by rw [hupd, hmap]⟩

/-- Witness for `update_empty_payload`: the empty update on the only
stored user answers 200 with the unchanged document. -/
theorem update_empty_payload_witness :
    updateErrors ⟨none, none, none⟩ = [] ∧
    updateUser [⟨"aaaaaaaaaaaaaaaaaaaaaaaa", "bob", "a@b.c", "secret"⟩]
        "aaaaaaaaaaaaaaaaaaaaaaaa" ⟨none, none, none⟩ =
      (⟨200, Body.user ⟨"aaaaaaaaaaaaaaaaaaaaaaaa", "bob", "a@b.c", "secret"⟩⟩,
       [⟨"aaaaaaaaaaaaaaaaaaaaaaaa", "bob", "a@b.c", "secret"⟩]) :=
  update_empty_payload [⟨"aaaaaaaaaaaaaaaaaaaaaaaa", "bob", "a@b.c", "secret"⟩]
    "aaaaaaaaaaaaaaaaaaaaaaaa"
    ⟨"aaaaaaaaaaaaaaaaaaaaaaaa", "bob", "a@b.c", "secret"⟩
    (by simp) (by decide) (by decide) (by decide)

/-- Claim C3 — For every Update request (PUT `/users/:id`) on an existing
document (in a collection whose stored documents are field-valid, as every
reachable collection is), the supplied fields are merged into the stored
document and the operation succeeds exactly when the merged document
passes the same field validation as Create — every schema validator on
the merged fields, plus email uniqueness against the other stored
documents.  If valid, the merged document is persisted and returned with
200; otherwise the response is 400 with a non-empty validation message
and the collection is unchanged (no partial write). -/
theorem update_revalidation (s : UserStore) (id : String) (p : UserPayload)
    (u : StoredUser)
    (hval : ∀ v ∈ s, storedValid v)
    (hv : validObjectId id = true)
    (hf : s.find? (fun v => v.id == normalizeId id) = some u) :
    ((usernameError (some (applyUpdate u p).username) = none ∧
      emailError (some (applyUpdate u p).email) = none ∧
      passwordError (some (applyUpdate u p).password) = none ∧
      (∀ v ∈ s, v.id ≠ u.id → v.email ≠ (applyUpdate u p).email)) →
      updateUser s id p =
        (⟨200, Body.user (applyUpdate u p)⟩,
         s.map (fun v => if v.id == u.id then applyUpdate u p else v))) ∧
    ((¬ (usernameError (some (applyUpdate u p).username) = none ∧
      emailError (some (applyUpdate u p).email) = none ∧
      passwordError (some (applyUpdate u p).password) = none ∧
      (∀ v ∈ s, v.id ≠ u.id → v.email ≠ (applyUpdate u p).email))) →
      ∃ m, m ≠ "" ∧ updateUser s id p = (⟨400, Body.errorMsg m⟩, s)) := by
  have hu : storedValid u := hval u (List.mem_of_find?_eq_some hf)
  constructor
  · rintro ⟨h1, h2, h3, h4⟩
    have herr : updateErrors p = [] :=
      (updateErrors_nil_iff_merged_valid hu).mpr ⟨h1, h2, h3⟩
    have hdup : ¬ ∃ v ∈ s, v.id ≠ u.id ∧ v.email = (applyUpdate u p).email := by
      rintro ⟨v, hvm, hne, heq⟩
      exact h4 v hvm hne heq
    simp [updateUser, findByIdAndUpdateDriver, hv, herr, hf, hdup, updateRoute]
  · intro hnc
    by_cases herr : updateErrors p = []
    · obtain ⟨h1, h2, h3⟩ := (updateErrors_nil_iff_merged_valid hu).mp herr
      have hdup : ∃ v ∈ s, v.id ≠ u.id ∧ v.email = (applyUpdate u p).email := by
        by_contra hc
        push_neg at hc
        exact hnc ⟨h1, h2, h3, hc⟩
      refine ⟨dbErrMessage (.dupKey (applyUpdate u p).email),
        dbErrMessage_dupKey_ne _, ?_⟩
      simp [updateUser, findByIdAndUpdateDriver, hv, herr, hf, hdup,
        updateRoute]
    · refine ⟨dbErrMessage (.validation (updateErrors p)),
        dbErrMessage_validation_ne _, ?_⟩
      simp [updateUser, findByIdAndUpdateDriver, hv, herr, updateRoute]

/-- Witness for `update_revalidation`: merging a valid username change
into the only stored user persists and returns the merged document, and
merging an invalid email is rejected with 400 leaving the store
unchanged. -/
theorem update_revalidation_witness :
    (updateUser [⟨"aaaaaaaaaaaaaaaaaaaaaaaa", "bob", "a@b.c", "secret"⟩]
        "aaaaaaaaaaaaaaaaaaaaaaaa" ⟨some "carol", none, none⟩ =
      (⟨200, Body.user (applyUpdate
          ⟨"aaaaaaaaaaaaaaaaaaaaaaaa", "bob", "a@b.c", "secret"⟩
          ⟨some "carol", none, none⟩)⟩,
       List.map (fun v =>
         if v.id == "aaaaaaaaaaaaaaaaaaaaaaaa" then
           applyUpdate ⟨"aaaaaaaaaaaaaaaaaaaaaaaa", "bob", "a@b.c", "secret"⟩
             ⟨some "carol", none, none⟩
         else v)
         [⟨"aaaaaaaaaaaaaaaaaaaaaaaa", "bob", "a@b.c", "secret"⟩])) ∧
    (∃ m, m ≠ "" ∧
      updateUser [⟨"aaaaaaaaaaaaaaaaaaaaaaaa", "bob", "a@b.c", "secret"⟩]
          "aaaaaaaaaaaaaaaaaaaaaaaa" ⟨none, some "invalid", none⟩ =
        (⟨400, Body.errorMsg m⟩,
         [⟨"aaaaaaaaaaaaaaaaaaaaaaaa", "bob", "a@b.c", "secret"⟩])) :=
  ⟨(update_revalidation [⟨"aaaaaaaaaaaaaaaaaaaaaaaa", "bob", "a@b.c", "secret"⟩]
      "aaaaaaaaaaaaaaaaaaaaaaaa" ⟨some "carol", none, none⟩
      ⟨"aaaaaaaaaaaaaaaaaaaaaaaa", "bob", "a@b.c", "secret"⟩
      (by decide) (by decide) (by decide)).1
      ⟨by decide, by decide, by decide, by decide⟩,
   (update_revalidation [⟨"aaaaaaaaaaaaaaaaaaaaaaaa", "bob", "a@b.c", "secret"⟩]
      "aaaaaaaaaaaaaaaaaaaaaaaa" ⟨none, some "invalid", none⟩
      ⟨"aaaaaaaaaaaaaaaaaaaaaaaa", "bob", "a@b.c", "secret"⟩
      (by decide) (by decide) (by decide)).2
      (by
        rintro ⟨-, h2, -⟩
        exact absurd h2 (by decide))⟩

/-! ## Preservation of well-formedness by every operation -/

theorem createUser_wf {s : UserStore} {newId : String} {p : UserPayload}
    (h : storeWF s) (hfresh : ∀ v ∈ s, v.id ≠ newId) :
    storeWF (createUser s newId p).2 := by
  obtain ⟨hid, hem, hval⟩ := h
  by_cases hde : docErrors p = []
  · by_cases hdup : ∃ v ∈ s, v.email = p.email.getD ""
    · have h2 : (createUser s newId p).2 = s := by
        simp [createUser, saveDriver, hde, hdup]
      rw [h2]; exact ⟨hid, hem, hval⟩
    · have h2 : (createUser s newId p).2 =
          s ++ [⟨newId, p.username.getD "", p.email.getD "",
            p.password.getD ""⟩] := by
        simp [createUser, saveDriver, hde, hdup]
      rw [h2]
      obtain ⟨hu, he, hw⟩ := docErrors_eq_nil.mp hde
      obtain ⟨un, hun, h3, h50⟩ := usernameError_eq_none.mp hu
      obtain ⟨em, hemail, hmatch⟩ := emailError_eq_none.mp he
      obtain ⟨pw, hpw, h6⟩ := passwordError_eq_none.mp hw
      push_neg at hdup
      refine ⟨?_, ?_, ?_⟩
      · rw [List.pairwise_append]
        refine ⟨hid, by simp, ?_⟩
        intro a ha b hb
        rw [List.mem_singleton] at hb
        subst hb
        exact hfresh a ha
      · rw [List.pairwise_append]
        refine ⟨hem, by simp, ?_⟩
        intro a ha b hb
        rw [List.mem_singleton] at hb
        subst hb
        exact hdup a ha
      · intro v hvm
        rw [List.mem_append] at hvm
        cases hvm with
        | inl hvs => exact hval v hvs
        | inr hv1 =>
          rw [List.mem_singleton] at hv1
          subst hv1
          exact ⟨by simpa [hun] using hu, by simpa [hemail] using he,
            by simpa [hpw] using hw⟩
  · have h2 : (createUser s newId p).2 = s := by
      simp [createUser, saveDriver, hde]
    rw [h2]; exact ⟨hid, hem, hval⟩

theorem updateUser_wf {s : UserStore} {id : String} {p : UserPayload}
    (h : storeWF s) : storeWF (updateUser s id p).2 := by
  obtain ⟨hid, hem, hval⟩ := h
  by_cases hvt : validObjectId id = true
  · by_cases herr : updateErrors p = []
    · cases hfind : s.find? (fun v => v.id == normalizeId id) with
      | none =>
        have h2 : (updateUser s id p).2 = s := by
          simp [updateUser, findByIdAndUpdateDriver, hvt, herr, hfind]
        rw [h2]; exact ⟨hid, hem, hval⟩
      | some u =>
        by_cases hdup : ∃ v ∈ s, v.id ≠ u.id ∧ v.email = (applyUpdate u p).email
        · have h2 : (updateUser s id p).2 = s := by
            simp [updateUser, findByIdAndUpdateDriver, hvt, herr, hfind, hdup]
          rw [h2]; exact ⟨hid, hem, hval⟩
        · have hmem := List.mem_of_find?_eq_some hfind
          have hu : storedValid u := hval u hmem
          have h2 : (updateUser s id p).2 =
              s.map (fun v => if v.id == u.id then applyUpdate u p else v) := by
            simp [updateUser, findByIdAndUpdateDriver, hvt, herr, hfind, hdup]
          push_neg at hdup
          have fid : ∀ v : StoredUser,
              (if v.id == u.id then applyUpdate u p else v).id = v.id := by
            intro v
            by_cases hc : v.id = u.id
            · simp [hc, applyUpdate]
            · simp [show (v.id == u.id) = false by simpa using hc]
          rw [h2]
          refine ⟨?_, ?_, ?_⟩
          · rw [List.pairwise_map]
            apply hid.imp
            intro a b hab
            rw [fid a, fid b]
            exact hab
          · rw [List.pairwise_map]
            apply (hid.and hem).imp_of_mem
            intro a b ha hb hab
            obtain ⟨hab1, hab2⟩ := hab
            by_cases ha' : a.id = u.id <;> by_cases hb' : b.id = u.id
            · exact absurd (ha'.trans hb'.symm) hab1
            · simp only [show (a.id == u.id) = true by simpa using ha',
                show (b.id == u.id) = false by simpa using hb', if_true,
                if_false]
              intro hc
              exact hdup b hb hb' hc.symm
            · simp only [show (a.id == u.id) = false by simpa using ha',
                show (b.id == u.id) = true by simpa using hb', if_true,
                if_false]
              intro hc
              exact hdup a ha ha' hc
            · simp only [show (a.id == u.id) = false by simpa using ha',
                show (b.id == u.id) = false by simpa using hb', if_false]
              exact hab2
          · intro v hvm
            rw [List.mem_map] at hvm
            obtain ⟨w, hw, rfl⟩ := hvm
            by_cases hc : w.id = u.id
            · simp only [show (w.id == u.id) = true by simpa using hc,
                if_true]
              exact (updateErrors_nil_iff_merged_valid hu).mp herr
            · simp only [show (w.id == u.id) = false by simpa using hc,
                if_false]
              exact hval w hw
    · have h2 : (updateUser s id p).2 = s := by
        simp [updateUser, findByIdAndUpdateDriver, hvt, herr]
      rw [h2]; exact ⟨hid, hem, hval⟩
  · have hvf : validObjectId id = false := by
      simpa using hvt
    have h2 : (updateUser s id p).2 = s := by
      simp [updateUser, findByIdAndUpdateDriver, hvf]
    rw [h2]; exact ⟨hid, hem, hval⟩

theorem deleteUser_wf {s : UserStore} {id : String}
    (h : storeWF s) : storeWF (deleteUser s id).2 := by
  obtain ⟨hid, hem, hval⟩ := h
  by_cases hvt : validObjectId id = true
  · cases hfind : s.find? (fun v => v.id == normalizeId id) with
    | none =>
      have h2 : (deleteUser s id).2 = s := by
        simp [deleteUser, findByIdAndDeleteDriver, hvt, hfind]
      rw [h2]; exact ⟨hid, hem, hval⟩
    | some u =>
      have h2 : (deleteUser s id).2 =
          s.eraseP (fun v => v.id == normalizeId id) := by
        simp [deleteUser, findByIdAndDeleteDriver, hvt, hfind]
      rw [h2]
      have hsub : List.Sublist (s.eraseP (fun v => v.id == normalizeId id)) s :=
        List.eraseP_sublist s
      exact ⟨hid.sublist hsub, hem.sublist hsub,
        fun v hv => hval v (hsub.subset hv)⟩
  · have hvf : validObjectId id = false := by
      simpa using hvt
    have h2 : (deleteUser s id).2 = s := by
      simp [deleteUser, findByIdAndDeleteDriver, hvf]
    rw [h2]; exact ⟨hid, hem, hval⟩

/-- Every reachable collection is well-formed: ids pairwise distinct,
emails pairwise distinct, every stored document field-valid. -/
theorem reachable_wf {s : UserStore} (h : Reachable s) : storeWF s := by
  induction h with
  | empty => exact ⟨List.Pairwise.nil, List.Pairwise.nil, by simp⟩
  | create s newId p hr hfresh ih => exact createUser_wf ih hfresh
  | update s id p hr ih => exact updateUser_wf ih
  | delete s id hr ih => exact deleteUser_wf ih

/-- Claim C4 — Email uniqueness is an invariant of the user store preserved
by every operation: in every reachable collection no two user documents
share an email, and a Create whose email equals the email of an
already-stored user fails to persist, returning 400 and leaving the
collection unchanged. -/
theorem email_uniqueness_invariant (s : UserStore) (h : Reachable s) :
    List.Pairwise (fun a b : StoredUser => a.email ≠ b.email) s ∧
    ∀ (newId : String) (p : UserPayload) (e : String) (v : StoredUser),
      p.email = some e → v ∈ s → v.email = e →
      (createUser s newId p).1.status = 400 ∧
      (createUser s newId p).2 = s := by
  refine ⟨(reachable_wf h).2.1, ?_⟩
  intro newId p e v hpe hv hve
  by_cases hde : docErrors p = []
  · have hdup : ∃ w ∈ s, w.email = p.email.getD "" :=
      ⟨v, hv, by rw [hpe]; simpa using hve⟩
    constructor <;> simp [createUser, saveDriver, createRoute, hde, hdup]
  · constructor <;> simp [createUser, saveDriver, createRoute, hde]

/-- Witness for `email_uniqueness_invariant`: in the reachable one-user
collection, emails are pairwise distinct and re-creating the same email
answers 400 without changing the collection. -/
theorem email_uniqueness_invariant_witness :
    List.Pairwise (fun a b : StoredUser => a.email ≠ b.email)
      (createUser [] "aaaaaaaaaaaaaaaaaaaaaaaa"
        ⟨some "bob", some "a@b.c", some "secret"⟩).2 ∧
    ∀ (newId : String) (p : UserPayload) (e : String) (v : StoredUser),
      p.email = some e →
      v ∈ (createUser [] "aaaaaaaaaaaaaaaaaaaaaaaa"
        ⟨some "bob", some "a@b.c", some "secret"⟩).2 →
      v.email = e →
      (createUser (createUser [] "aaaaaaaaaaaaaaaaaaaaaaaa"
        ⟨some "bob", some "a@b.c", some "secret"⟩).2 newId p).1.status = 400 ∧
      (createUser (createUser [] "aaaaaaaaaaaaaaaaaaaaaaaa"
        ⟨some "bob", some "a@b.c", some "secret"⟩).2 newId p).2 =
        (createUser [] "aaaaaaaaaaaaaaaaaaaaaaaa"
          ⟨some "bob", some "a@b.c", some "secret"⟩).2 :=
  email_uniqueness_invariant _
    (Reachable.create [] "aaaaaaaaaaaaaaaaaaaaaaaa"
      ⟨some "bob", some "a@b.c", some "secret"⟩ Reachable.empty (by simp))

/-- Claim C5, counterexample — The claim asserts that every CRUD
verb-and-path pair is dispatched under both `/users` and `/groups`; but
`server.js` never mounts the groups router, so already POST `/groups/`
is not dispatched. -/
theorem groups_not_mounted :
    dispatches "/groups" ⟨HttpMethod.post, RoutePattern.root⟩ = false := by
  decide

/-- Claim C5, amended — Both router modules register the five CRUD routes
(POST `/`, GET `/`, GET `/:id`, PUT `/:id`, DELETE `/:id`), but
`server.js` mounts only the users router under `/users`: every CRUD
verb-and-path pair is dispatched under `/users`, and no request under
`/groups` is dispatched at all. -/
theorem crud_route_surface :
    usersRouter =
      [⟨.post, .root⟩, ⟨.get, .root⟩, ⟨.get, .byId⟩, ⟨.put, .byId⟩,
       ⟨.delete, .byId⟩] ∧
    groupsRouter = usersRouter ∧
    (dispatches "/users" ⟨.post, .root⟩ = true ∧
     dispatches "/users" ⟨.get, .root⟩ = true ∧
     dispatches "/users" ⟨.get, .byId⟩ = true ∧
     dispatches "/users" ⟨.put, .byId⟩ = true ∧
     dispatches "/users" ⟨.delete, .byId⟩ = true) ∧
    (∀ e : RouterEntry, dispatches "/groups" e = false) := by
  refine ⟨rfl, rfl, ⟨by decide, by decide, by decide, by decide, by decide⟩,
    ?_⟩
  intro e
  have hne : ("/users" == "/groups") = false := by decide
  simp [dispatches, serverMounts, hne]

/-- Claim C7, counterexample — The claim asserts that no handler converts a
storage-layer fault outside validation/cast/absence into a 400 or 404
response; but the catch-all in the GET `/:id` handler answers 400
`"Invalid user ID"` to an arbitrary storage fault. -/
theorem storage_fault_converted_to_400 :
    getByIdRoute (Except.error (DbErr.fault "connection lost")) =
      ⟨400, Body.errorMsg "Invalid user ID"⟩ := rfl

/-- Claim C7, amended — Only the List handler (GET `/`) lacks a
`try`/`catch`, so a storage-layer fault there propagates unhandled (no
response); every other handler wraps its single storage call in a
catch-all that converts any thrown fault — including faults beyond
field validation, malformed identifier, and resource absence — into a
400 response. -/
theorem fault_handling_by_handler :
    (∀ e : DbErr, (createRoute (Except.error e)).status = 400) ∧
    (∀ e : DbErr, getByIdRoute (Except.error e) =
      ⟨400, Body.errorMsg "Invalid user ID"⟩) ∧
    (∀ e : DbErr, (updateRoute (Except.error e)).status = 400) ∧
    (∀ e : DbErr, deleteRoute (Except.error e) =
      ⟨400, Body.errorMsg "Invalid user ID"⟩) ∧
    (∀ e : DbErr, listRoute (Except.error e) = none) :=
  ⟨fun _ => rfl, fun _ => rfl, fun _ => rfl, fun _ => rfl, fun _ => rfl⟩

/-- Claim C9 — Every success response that carries a user document
(Create 201, List 200, Get 200, Update 200) serializes the full stored
document, password included, verbatim and in plain text; no field is
redacted or transformed on the way out. -/
theorem password_serialized_verbatim (s : UserStore) (newId : String)
    (p : UserPayload) (id : String) :
    (∀ u : StoredUser, serializeUser u =
      [("_id", u.id), ("username", u.username), ("email", u.email),
       ("password", u.password)]) ∧
    ((createUser s newId p).1.status = 201 →
      ∃ u, (createUser s newId p).1.body = Body.user u ∧
        p.password = some u.password ∧
        ("password", u.password) ∈ serializeUser u) ∧
    (listUsers s = some ⟨200, Body.users s⟩ ∧
      ∀ u ∈ s, ("password", u.password) ∈ serializeUser u) ∧
    (∀ b, getUser s id = ⟨200, b⟩ →
      ∃ u ∈ s, b = Body.user u ∧
        ("password", u.password) ∈ serializeUser u) ∧
    ((updateUser s id p).1.status = 200 →
      ∃ u, (updateUser s id p).1.body = Body.user u ∧
        ("password", u.password) ∈ serializeUser u) := by
  refine ⟨fun u => rfl, ?_, ⟨rfl, fun u _ => by simp [serializeUser]⟩, ?_, ?_⟩
  · intro h201
    by_cases hde : docErrors p = []
    · by_cases hdup : ∃ v ∈ s, v.email = p.email.getD ""
      · exfalso
        simp [createUser, saveDriver, createRoute, hde, hdup] at h201
      · obtain ⟨-, -, hw⟩ := docErrors_eq_nil.mp hde
        obtain ⟨pw, hpw, -⟩ := passwordError_eq_none.mp hw
        refine ⟨⟨newId, p.username.getD "", p.email.getD "",
          p.password.getD ""⟩, ?_, ?_, by simp [serializeUser]⟩
        · simp [createUser, saveDriver, createRoute, hde, hdup]
        · rw [hpw]; simp
    · exfalso
      simp [createUser, saveDriver, createRoute, hde] at h201
  · intro b hb
    by_cases hvt : validObjectId id = true
    · cases hfind : s.find? (fun v => v.id == normalizeId id) with
      | none =>
        rw [getUser_missing hvt hfind] at hb
        simp at hb
      | some u =>
        rw [getUser_found hvt hfind] at hb
        exact ⟨u, List.mem_of_find?_eq_some hfind,
          (congrArg Response.body hb).symm, by simp [serializeUser]⟩
    · have hvf : validObjectId id = false := by simpa using hvt
      rw [getUser_invalid hvf] at hb
      simp at hb
  · intro h200
    by_cases hvt : validObjectId id = true
    · by_cases herr : updateErrors p = []
      · cases hfind : s.find? (fun v => v.id == normalizeId id) with
        | none =>
          exfalso
          simp [updateUser, findByIdAndUpdateDriver, updateRoute, hvt, herr,
            hfind] at h200
        | some u =>
          by_cases hdup :
              ∃ v ∈ s, v.id ≠ u.id ∧ v.email = (applyUpdate u p).email
          · exfalso
            simp [updateUser, findByIdAndUpdateDriver, updateRoute, hvt,
              herr, hfind, hdup] at h200
          · refine ⟨applyUpdate u p, ?_, by simp [serializeUser]⟩
            simp [updateUser, findByIdAndUpdateDriver, updateRoute, hvt,
              herr, hfind, hdup]
      · exfalso
        simp [updateUser, findByIdAndUpdateDriver, updateRoute, hvt,
          herr] at h200
    · exfalso
      have hvf : validObjectId id = false := by simpa using hvt
      simp [updateUser, findByIdAndUpdateDriver, updateRoute, hvf] at h200

/-- Witness for `password_serialized_verbatim`: a concrete Create 201 and
a concrete Get 200 both carry the password `"secret"` verbatim. -/
theorem password_serialized_verbatim_witness :
    (∃ u, (createUser [] "aaaaaaaaaaaaaaaaaaaaaaaa"
        ⟨some "bob", some "a@b.c", some "secret"⟩).1.body = Body.user u ∧
      (some "secret" : Option String) = some u.password ∧
      ("password", u.password) ∈ serializeUser u) ∧
    (∃ u ∈ [(⟨"aaaaaaaaaaaaaaaaaaaaaaaa", "bob", "a@b.c", "secret"⟩ :
        StoredUser)],
      Body.user (⟨"aaaaaaaaaaaaaaaaaaaaaaaa", "bob", "a@b.c", "secret"⟩ :
        StoredUser) = Body.user u ∧
      ("password", u.password) ∈ serializeUser u) :=
  ⟨(password_serialized_verbatim [] "aaaaaaaaaaaaaaaaaaaaaaaa"
      ⟨some "bob", some "a@b.c", some "secret"⟩ "x").2.1 (by decide),
   (password_serialized_verbatim
      [⟨"aaaaaaaaaaaaaaaaaaaaaaaa", "bob", "a@b.c", "secret"⟩]
      "aaaaaaaaaaaaaaaaaaaaaaaa"
      ⟨some "bob", some "a@b.c", some "secret"⟩
      "aaaaaaaaaaaaaaaaaaaaaaaa").2.2.2.1
      (Body.user ⟨"aaaaaaaaaaaaaaaaaaaaaaaa", "bob", "a@b.c", "secret"⟩)
      (by decide)⟩

end UsersRest
